import Mathlib

/-!
Shallow embedding of `src/project_for_test/src/main.rs` (raydium_parser):
the account resolver (`convert_compiled_instruction`), the transaction
walker (`decode_transaction`), and the websocket notification loop of
`connect_to_quicknode_ws` (slot-window tracking, notification handling).
External collaborators (the network transport, the RPC fetch, and the
pluggable carbon decoder crate) are modelled as parameters / abstract data.
-/

/-- Account identifiers (`Pubkey`) are compared only for equality in this
program; we model them by their base58 string rendering. -/
abbrev Pubkey := String

/-- `const RAYDIUM_PROGRAM_ID` from main.rs line 23. -/
def RAYDIUM_PROGRAM_ID : Pubkey := "675kPX9MHTjS2zt1qfr1NYHuzeLXfQM9H24wFSUt1Mp8"

/-- `solana_program::message::MessageHeader`; the three `u8` counts,
as naturals. -/
structure MessageHeader where
  num_required_signatures : Nat
  num_readonly_signed_accounts : Nat
  num_readonly_unsigned_accounts : Nat
deriving DecidableEq

/-- `solana_sdk::instruction::CompiledInstruction`: index-referenced
instruction encoding. `data` is an opaque byte sequence. -/
structure CompiledInstruction where
  program_id_index : Nat
  accounts : List Nat
  data : List Nat
deriving DecidableEq

/-- `solana_program::instruction::AccountMeta`. -/
structure AccountMeta where
  pubkey : Pubkey
  is_signer : Bool
  is_writable : Bool
deriving DecidableEq

/-- `solana_sdk::instruction::Instruction`: the fully resolved instruction. -/
structure Instruction where
  program_id : Pubkey
  accounts : List AccountMeta
  data : List Nat
deriving DecidableEq

/-- The part of `VersionedMessage` this program reads: the header
(`msg.header()`), the static account key table
(`msg.static_account_keys()`), and the instruction list
(`msg.instructions()`). -/
structure VersionedMessage where
  header : MessageHeader
  account_keys : List Pubkey
  instructions : List CompiledInstruction
deriving DecidableEq

/-- Result of running a Rust code path that may panic (here: `usize`
subtraction underflow, which panics in debug builds). -/
inductive RunResult (α : Type) where
  | panicked : RunResult α
  | ok : α → RunResult α
deriving DecidableEq

/-- The closure of the `filter_map` at main.rs lines 177-189: one account
reference index is either skipped (out of range of the key table) or
resolved to an `AccountMeta` with the positional permission flags
`is_signer = i < num_signers` and
`is_writable = i < num_writable_accounts`, where
`num_writable_accounts = (num_required_signatures -
num_readonly_signed_accounts) + num_readonly_unsigned_accounts`.
It is only ever evaluated after the underflow check of
`convert_compiled_instruction`, so the truncated `Nat` subtraction agrees
with the Rust `usize` subtraction. -/
def resolveAccountMeta (msg : VersionedMessage) (i : Nat) : Option AccountMeta :=
  if i ≥ msg.account_keys.length then
    none
  else
    some { pubkey := msg.account_keys.getD i ""
           is_signer := decide (i < msg.header.num_required_signatures)
           is_writable := decide (i <
             msg.header.num_required_signatures -
               msg.header.num_readonly_signed_accounts +
               msg.header.num_readonly_unsigned_accounts) }

/-- main.rs lines 148-201, `convert_compiled_instruction`: resolve a
`CompiledInstruction` against the message's account key table and header.
Returns `ok none` where the Rust returns `None` (out-of-range
`program_id_index`, or program filter reject), and `panicked` where the
Rust `usize` subtraction `num_signers - num_readonly_signed_accounts`
underflows (a debug-build panic). Out-of-range account indices are
skipped by the `filter_map` (`resolveAccountMeta`). -/
def convert_compiled_instruction (cix : CompiledInstruction)
    (msg : VersionedMessage) : RunResult (Option Instruction) :=
  if cix.program_id_index ≥ msg.account_keys.length then
    RunResult.ok none
  else if msg.account_keys.getD cix.program_id_index "" ≠ RAYDIUM_PROGRAM_ID then
    RunResult.ok none
  else if msg.header.num_readonly_signed_accounts >
      msg.header.num_required_signatures then
    RunResult.panicked
  else
    RunResult.ok (some
      { program_id := msg.account_keys.getD cix.program_id_index ""
        accounts := cix.accounts.filterMap (resolveAccountMeta msg)
        data := cix.data })

/-- The closed variant set produced by the external carbon decoder crate;
only `SwapBaseIn` (with `amount_in`, `minimum_amount_out`) is consumed by
this program, all other variants are collapsed into one constructor. -/
inductive RaydiumAmmV4Instruction where
  | swapBaseIn (amount_in : Nat) (minimum_amount_out : Nat)
  | otherVariant
deriving DecidableEq

/-- The record `save_event` appends to `swap_events.json`
(main.rs lines 205-216). -/
structure SwapEvent where
  transaction_signature : String
  slot : Nat
  amount_in : Nat
  min_amount_out : Nat
deriving DecidableEq

/-- One iteration of the loop body of `decode_transaction`
(main.rs lines 135-144) on a single compiled instruction. The external
decoder (`decoder.decode_instruction`) is a parameter `decode`. Returns
the list of resolved instructions handed to the decoder (empty or a
singleton) together with the list of persisted events. -/
def processInstruction (decode : Instruction → Option RaydiumAmmV4Instruction)
    (signature : String) (slot : Nat) (msg : VersionedMessage)
    (cix : CompiledInstruction) : RunResult (List Instruction × List SwapEvent) :=
  match convert_compiled_instruction cix msg with
  | RunResult.panicked => RunResult.panicked
  | RunResult.ok none => RunResult.ok ([], [])
  | RunResult.ok (some ix) =>
      match decode ix with
      | some (RaydiumAmmV4Instruction.swapBaseIn a m) =>
          RunResult.ok ([ix], [⟨signature, slot, a, m⟩])
      | _ => RunResult.ok ([ix], [])

/-- The `for cix in versioned_tx.message.instructions()` loop of
`decode_transaction`, over an explicit instruction list. -/
def decode_transaction_go (decode : Instruction → Option RaydiumAmmV4Instruction)
    (signature : String) (slot : Nat) (msg : VersionedMessage) :
    List CompiledInstruction → RunResult (List Instruction × List SwapEvent)
  | [] => RunResult.ok ([], [])
  | cix :: rest =>
      match processInstruction decode signature slot msg cix with
      | RunResult.panicked => RunResult.panicked
      | RunResult.ok (ixs, evs) =>
          match decode_transaction_go decode signature slot msg rest with
          | RunResult.panicked => RunResult.panicked
          | RunResult.ok (ixs2, evs2) => RunResult.ok (ixs ++ ixs2, evs ++ evs2)

/-- main.rs lines 132-145, `decode_transaction`: walk every instruction of
the transaction's message, resolving, filtering, decoding and persisting. -/
def decode_transaction (decode : Instruction → Option RaydiumAmmV4Instruction)
    (signature : String) (slot : Nat) (msg : VersionedMessage) :
    RunResult (List Instruction × List SwapEvent) :=
  decode_transaction_go decode signature slot msg msg.instructions

/-- Reinterpretation of a `u64` value as `i64` (`slot as i64`,
main.rs line 75): values `< 2^63` are unchanged, the rest wrap to
negatives. -/
def toI64 (n : Nat) : Int :=
  if n % 2 ^ 64 < 2 ^ 63 then ((n % 2 ^ 64 : Nat) : Int)
  else ((n % 2 ^ 64 : Nat) : Int) - 2 ^ 64

/-- Checked `i64` subtraction: `a - b` for `a`, `b` in the `i64` range,
panicking (debug build) when the mathematical difference leaves
`[-2^63, 2^63 - 1]`. -/
def subI64 (a b : Int) : RunResult Int :=
  if a - b < -((2 ^ 63 : Nat) : Int) ∨ ((2 ^ 63 : Nat) : Int) - 1 < a - b then
    RunResult.panicked
  else RunResult.ok (a - b)

/-- `let slot_diff = slot as i64 - start_slot as i64` (main.rs line 75):
both `u64` slots are reinterpreted as `i64` and subtracted as `i64`, so
the subtraction itself can overflow and panic (debug build). -/
def slot_diff (start_slot slot : Nat) : RunResult Int :=
  subI64 (toI64 slot) (toI64 start_slot)

/-- A parsed inbound websocket notification: the two JSON fields the loop
reads, `params.result.context.slot` (`as_u64`, may be absent) and
`params.result.value.signature` (`as_str`, may be absent). -/
structure Notification where
  slot : Option Nat
  signature : Option String
deriving DecidableEq

/-- What the loop body of `connect_to_quicknode_ws` does with one text
notification: `dropped` is the `continue` at line 62 (missing slot, warn,
no fetch); `terminal` is the `break` at line 80 (window limit reached, no
fetch); `processed sig` reaches lines 84-87 and attempts
`fetch_transaction(&sig)`. -/
inductive NotificationOutcome where
  | dropped : NotificationOutcome
  | terminal : NotificationOutcome
  | processed : String → NotificationOutcome
deriving DecidableEq

/-- `true` exactly for the outcome in which `fetch_transaction` (and hence
the walk / decode / persist of lines 85-87) is reached. -/
def fetch_occurs : NotificationOutcome → Bool
  | NotificationOutcome.processed _ => true
  | _ => false

/-- main.rs lines 52-87: the body of the `while let` loop of
`connect_to_quicknode_ws` for one `Message::Text` notification, as a step
function on the `initial_slot : Option<u64>` session state. Missing slot:
warn and `continue`. Missing signature: default to `""`. First slot arms
the window; when armed, the `i64` difference is computed (a debug-build
panic when it overflows) and `slot_diff ≥ 100` breaks the loop before the
fetch; otherwise the notification's transaction is fetched and handled. -/
def ws_loop_step (initial_slot : Option Nat) (n : Notification) :
    RunResult (Option Nat × NotificationOutcome) :=
  match n.slot with
  | none => RunResult.ok (initial_slot, NotificationOutcome.dropped)
  | some slot =>
      let signature := n.signature.getD ""
      let initial_slot' :=
        match initial_slot with
        | none => some slot
        | some s => some s
      match initial_slot' with
      | some start_slot =>
          match slot_diff start_slot slot with
          | RunResult.panicked => RunResult.panicked
          | RunResult.ok d =>
              if d ≥ 100 then
                RunResult.ok (initial_slot', NotificationOutcome.terminal)
              else
                RunResult.ok (initial_slot', NotificationOutcome.processed signature)
      | none => RunResult.ok (initial_slot', NotificationOutcome.processed signature)

/-- The `while let` loop of `connect_to_quicknode_ws` over a finite stream
of text notifications: the trace of outcomes, stopping right after the
`break` of the window check, and propagating a panic of the slot-diff
computation. -/
def ws_loop (initial_slot : Option Nat) :
    List Notification → RunResult (List NotificationOutcome)
  | [] => RunResult.ok []
  | n :: rest =>
      match ws_loop_step initial_slot n with
      | RunResult.panicked => RunResult.panicked
      | RunResult.ok (_, NotificationOutcome.terminal) =>
          RunResult.ok [NotificationOutcome.terminal]
      | RunResult.ok (st, out) =>
          match ws_loop st rest with
          | RunResult.panicked => RunResult.panicked
          | RunResult.ok outs => RunResult.ok (out :: outs)

/-- Inversion of a successful resolution: the program index was in range,
the program filter matched, the header subtraction did not underflow, and
the output is the filter-mapped account list with the instruction's data. -/
theorem convert_ok_some_inv (cix : CompiledInstruction) (msg : VersionedMessage)
    (ix : Instruction)
    (hok : convert_compiled_instruction cix msg = RunResult.ok (some ix)) :
    cix.program_id_index < msg.account_keys.length ∧
    msg.account_keys.getD cix.program_id_index "" = RAYDIUM_PROGRAM_ID ∧
    msg.header.num_readonly_signed_accounts ≤ msg.header.num_required_signatures ∧
    ix = { program_id := RAYDIUM_PROGRAM_ID
           accounts := cix.accounts.filterMap (resolveAccountMeta msg)
           data := cix.data } := by
  unfold convert_compiled_instruction at hok
  split at hok
  · simp at hok
  · split at hok
    · simp at hok
    · split at hok
      · simp at hok
      · next h1 h2 h3 =>
          simp only [RunResult.ok.injEq, Option.some.injEq] at hok
          subst hok
          refine ⟨by omega, not_not.mp h2, by omega, ?_⟩
          rw [not_not.mp h2]

/-- The `filter_map` of the resolver, rewritten as the in-order image of
the in-bounds indices. -/
theorem filterMap_resolveAccountMeta_eq (msg : VersionedMessage) (l : List Nat) :
    l.filterMap (resolveAccountMeta msg) =
      (l.filter (fun i => decide (i < msg.account_keys.length))).map
        (fun i =>
          { pubkey := msg.account_keys.getD i ""
            is_signer := decide (i < msg.header.num_required_signatures)
            is_writable := decide (i <
              msg.header.num_required_signatures -
                msg.header.num_readonly_signed_accounts +
                msg.header.num_readonly_unsigned_accounts) }) := by
  induction l with
  | nil => rfl
  | cons a l ih =>
      by_cases h : a < msg.account_keys.length
      · simp [List.filterMap_cons, List.filter_cons, resolveAccountMeta, h,
          Nat.not_le.mpr h, ih]
      · simp [List.filterMap_cons, List.filter_cons, resolveAccountMeta, h,
          Nat.not_lt.mp h, ih]

/-- Claim C1: for every message header `{S, RS, RU}` with `S ≥ RS` and
every referenced account index `i` in bounds of the account key table,
the account resolver emits the account with `is_signer = (i < S)` and
`is_writable = (i < (S − RS) + RU)`. -/
theorem C1_permission_derivation (msg : VersionedMessage)
    (cix : CompiledInstruction) (ix : Instruction) (i : Nat)
    (_hinv : msg.header.num_readonly_signed_accounts ≤
      msg.header.num_required_signatures)
    (hok : convert_compiled_instruction cix msg = RunResult.ok (some ix))
    (hmem : i ∈ cix.accounts) (hi : i < msg.account_keys.length) :
    ({ pubkey := msg.account_keys.getD i ""
       is_signer := decide (i < msg.header.num_required_signatures)
       is_writable := decide (i <
         msg.header.num_required_signatures -
           msg.header.num_readonly_signed_accounts +
           msg.header.num_readonly_unsigned_accounts) } : AccountMeta)
      ∈ ix.accounts := by
  obtain ⟨-, -, -, rfl⟩ := convert_ok_some_inv cix msg ix hok
  exact List.mem_filterMap.mpr ⟨i, hmem, by simp [resolveAccountMeta, Nat.not_le.mpr hi]⟩

/-- Witness for C1 at the concrete header `{2, 1, 1}`, a 5-entry table
with the target program in slot 4, instruction accounts `[0, 1, 2, 3]`,
index `i = 0`. -/
theorem C1_permission_derivation_witness :
    ({ pubkey := "A", is_signer := true, is_writable := true } : AccountMeta) ∈
      (Instruction.mk RAYDIUM_PROGRAM_ID
        [{ pubkey := "A", is_signer := true, is_writable := true },
         { pubkey := "B", is_signer := true, is_writable := true },
         { pubkey := "C", is_signer := false, is_writable := false },
         { pubkey := "D", is_signer := false, is_writable := false }] []).accounts := by
  have h := C1_permission_derivation
    ⟨⟨2, 1, 1⟩, ["A", "B", "C", "D", RAYDIUM_PROGRAM_ID], []⟩
    ⟨4, [0, 1, 2, 3], []⟩
    (Instruction.mk RAYDIUM_PROGRAM_ID
      [{ pubkey := "A", is_signer := true, is_writable := true },
       { pubkey := "B", is_signer := true, is_writable := true },
       { pubkey := "C", is_signer := false, is_writable := false },
       { pubkey := "D", is_signer := false, is_writable := false }] [])
    0 (by decide) (by decide) (by decide) (by decide)
  simp only [] at h
  exact h

/-- Claim C4 counterexample: at the header
`{num_required_signatures := 2, num_readonly_signed_accounts := 1,
num_readonly_unsigned_accounts := 1}`, a 5-entry table and an instruction
referencing `[0, 1, 2, 3]`, the resolver computes
`num_writable_accounts = (2 − 1) + 1 = 2`, so index 1 comes out writable
and index 2 comes out non-writable — not the flags the claim expects
(index 1 `{signer: true, writable: false}`,
index 2 `{signer: false, writable: true}`). -/
theorem C4_scenario_counterexample :
    convert_compiled_instruction ⟨4, [0, 1, 2, 3], []⟩
        ⟨⟨2, 1, 1⟩, ["A", "B", "C", "D", RAYDIUM_PROGRAM_ID], []⟩ =
      RunResult.ok (some
        { program_id := RAYDIUM_PROGRAM_ID
          accounts :=
            [{ pubkey := "A", is_signer := true, is_writable := true },
             { pubkey := "B", is_signer := true, is_writable := true },
             { pubkey := "C", is_signer := false, is_writable := false },
             { pubkey := "D", is_signer := false, is_writable := false }]
          data := [] }) ∧
    ([{ pubkey := "A", is_signer := true, is_writable := true },
      { pubkey := "B", is_signer := true, is_writable := true },
      { pubkey := "C", is_signer := false, is_writable := false },
      { pubkey := "D", is_signer := false, is_writable := false }] :
        List AccountMeta) ≠
      [{ pubkey := "A", is_signer := true, is_writable := true },
       { pubkey := "B", is_signer := true, is_writable := false },
       { pubkey := "C", is_signer := false, is_writable := true },
       { pubkey := "D", is_signer := false, is_writable := false }] := by
  constructor
  · rfl
  · decide

/-- Claim C4 as amended: for the header `{2, 1, 1}`, the 5-entry table and
the instruction referencing `[0, 1, 2, 3]`, the resolver produces exactly
the flags index 0 `{signer: true, writable: true}`, index 1
`{signer: true, writable: true}`, index 2
`{signer: false, writable: false}`, index 3
`{signer: false, writable: false}` (the code's writable boundary is
`(S − RS) + RU = 2`). -/
theorem C4_scenario_actual :
    convert_compiled_instruction ⟨4, [0, 1, 2, 3], []⟩
        ⟨⟨2, 1, 1⟩, ["A", "B", "C", "D", RAYDIUM_PROGRAM_ID], []⟩ =
      RunResult.ok (some
        { program_id := RAYDIUM_PROGRAM_ID
          accounts :=
            [{ pubkey := "A", is_signer := true, is_writable := true },
             { pubkey := "B", is_signer := true, is_writable := true },
             { pubkey := "C", is_signer := false, is_writable := false },
             { pubkey := "D", is_signer := false, is_writable := false }]
          data := [] }) := rfl

/-- Claim C10: for every compiled instruction the resolver accepts, the
resolved account sequence is exactly the in-order image of the in-bounds
indices of the instruction's account reference list (order preserved,
duplicates kept), and its length is the number of in-bounds indices. -/
theorem C10_accounts_in_order_image (msg : VersionedMessage)
    (cix : CompiledInstruction) (ix : Instruction)
    (hok : convert_compiled_instruction cix msg = RunResult.ok (some ix)) :
    ix.accounts =
      (cix.accounts.filter (fun i => decide (i < msg.account_keys.length))).map
        (fun i =>
          { pubkey := msg.account_keys.getD i ""
            is_signer := decide (i < msg.header.num_required_signatures)
            is_writable := decide (i <
              msg.header.num_required_signatures -
                msg.header.num_readonly_signed_accounts +
                msg.header.num_readonly_unsigned_accounts) }) ∧
    ix.accounts.length =
      (cix.accounts.filter (fun i => decide (i < msg.account_keys.length))).length := by
  obtain ⟨-, -, -, rfl⟩ := convert_ok_some_inv cix msg ix hok
  refine ⟨filterMap_resolveAccountMeta_eq msg cix.accounts, ?_⟩
  rw [filterMap_resolveAccountMeta_eq msg cix.accounts]
  exact List.length_map _ _

/-- Witness for C10: a duplicated in-bounds index (1 twice) and an
out-of-bounds index (9) in the reference list; the resolved sequence keeps
both copies, skips the out-of-bounds one, and has length 3. -/
theorem C10_accounts_in_order_image_witness :
    (Instruction.mk RAYDIUM_PROGRAM_ID
        [{ pubkey := "B", is_signer := false, is_writable := true },
         { pubkey := "B", is_signer := false, is_writable := true },
         { pubkey := "A", is_signer := true, is_writable := true }] [3]).accounts =
      (([1, 1, 9, 0] : List Nat).filter (fun i => decide (i < 3))).map
        (fun i =>
          { pubkey := (["A", "B", RAYDIUM_PROGRAM_ID] : List Pubkey).getD i ""
            is_signer := decide (i < 1)
            is_writable := decide (i < 1 - 0 + 1) }) ∧
    (Instruction.mk RAYDIUM_PROGRAM_ID
        [{ pubkey := "B", is_signer := false, is_writable := true },
         { pubkey := "B", is_signer := false, is_writable := true },
         { pubkey := "A", is_signer := true, is_writable := true }] [3]).accounts.length =
      (([1, 1, 9, 0] : List Nat).filter (fun i => decide (i < 3))).length :=
  C10_accounts_in_order_image ⟨⟨1, 0, 1⟩, ["A", "B", RAYDIUM_PROGRAM_ID], []⟩
    ⟨2, [1, 1, 9, 0], [3]⟩ _ (by rfl)

/-- Forward evaluation of the resolver when the program index is in range,
the program filter matches, and the header subtraction does not
underflow. -/
theorem convert_ok_of_pass (cix : CompiledInstruction) (msg : VersionedMessage)
    (h1 : cix.program_id_index < msg.account_keys.length)
    (h2 : msg.account_keys.getD cix.program_id_index "" = RAYDIUM_PROGRAM_ID)
    (h3 : msg.header.num_readonly_signed_accounts ≤
      msg.header.num_required_signatures) :
    convert_compiled_instruction cix msg =
      RunResult.ok (some
        { program_id := RAYDIUM_PROGRAM_ID
          accounts := cix.accounts.filterMap (resolveAccountMeta msg)
          data := cix.data }) := by
  unfold convert_compiled_instruction
  rw [if_neg (by omega), if_neg (by simp only [ne_eq, h2, not_true_eq_false,
    not_false_eq_true]), if_neg (by omega), h2]

/-- Claim C3 counterexample: the instruction references index 5, out of
bounds of the 1-entry key table, yet the resolver still produces a
resolved instruction (the invalid index is skipped, the in-bounds sibling
index 0 is kept) and that instruction is handed to the decoder — the
instruction as a whole is not dropped. -/
theorem C3_oob_account_counterexample :
    (5 ∈ (CompiledInstruction.mk 0 [0, 5] [7]).accounts ∧
      (VersionedMessage.mk ⟨1, 0, 0⟩ [RAYDIUM_PROGRAM_ID] []).account_keys.length ≤ 5) ∧
    convert_compiled_instruction ⟨0, [0, 5], [7]⟩
        ⟨⟨1, 0, 0⟩, [RAYDIUM_PROGRAM_ID], []⟩ =
      RunResult.ok (some
        { program_id := RAYDIUM_PROGRAM_ID
          accounts :=
            [{ pubkey := RAYDIUM_PROGRAM_ID, is_signer := true, is_writable := true }]
          data := [7] }) ∧
    processInstruction (fun _ => none) "sig" 0
        ⟨⟨1, 0, 0⟩, [RAYDIUM_PROGRAM_ID], []⟩ ⟨0, [0, 5], [7]⟩ =
      RunResult.ok
        ([{ program_id := RAYDIUM_PROGRAM_ID
            accounts :=
              [{ pubkey := RAYDIUM_PROGRAM_ID, is_signer := true, is_writable := true }]
            data := [7] }], []) := by
  refine ⟨⟨by decide, by decide⟩, rfl, rfl⟩

/-- Claim C3 as amended: an out-of-range account index does not drop the
instruction as a whole; each out-of-range index is skipped individually
(with a warning) and the resolver still produces a resolved instruction
whose accounts are exactly the resolved in-bounds indices, which is then
forwarded to the decoder. -/
theorem C3_amended_oob_index_skipped (msg : VersionedMessage)
    (cix : CompiledInstruction)
    (h1 : cix.program_id_index < msg.account_keys.length)
    (h2 : msg.account_keys.getD cix.program_id_index "" = RAYDIUM_PROGRAM_ID)
    (h3 : msg.header.num_readonly_signed_accounts ≤
      msg.header.num_required_signatures) :
    ∃ ix, convert_compiled_instruction cix msg = RunResult.ok (some ix) ∧
      ix.accounts =
        (cix.accounts.filter (fun i => decide (i < msg.account_keys.length))).map
          (fun i =>
            { pubkey := msg.account_keys.getD i ""
              is_signer := decide (i < msg.header.num_required_signatures)
              is_writable := decide (i <
                msg.header.num_required_signatures -
                  msg.header.num_readonly_signed_accounts +
                  msg.header.num_readonly_unsigned_accounts) }) ∧
      ∀ decode sig slot, ∃ evs,
        processInstruction decode sig slot msg cix = RunResult.ok ([ix], evs) := by
  refine ⟨_, convert_ok_of_pass cix msg h1 h2 h3,
    filterMap_resolveAccountMeta_eq msg cix.accounts, ?_⟩
  intro decode sig slot
  have hc := convert_ok_of_pass cix msg h1 h2 h3
  simp only [processInstruction, hc]
  cases hdec : decode { program_id := RAYDIUM_PROGRAM_ID
                        accounts := cix.accounts.filterMap (resolveAccountMeta msg)
                        data := cix.data } with
  | none => exact ⟨[], rfl⟩
  | some v =>
      cases v with
      | swapBaseIn a m => exact ⟨[⟨sig, slot, a, m⟩], rfl⟩
      | otherVariant => exact ⟨[], rfl⟩

/-- Witness for the amended C3 at the counterexample input: the resolver
keeps index 0 and skips index 5. -/
theorem C3_amended_oob_index_skipped_witness :
    ∃ ix, convert_compiled_instruction ⟨0, [0, 5], [7]⟩
        ⟨⟨1, 0, 0⟩, [RAYDIUM_PROGRAM_ID], []⟩ = RunResult.ok (some ix) ∧
      ix.accounts =
        (([0, 5] : List Nat).filter (fun i => decide (i < 1))).map
          (fun i =>
            { pubkey := ([RAYDIUM_PROGRAM_ID] : List Pubkey).getD i ""
              is_signer := decide (i < 1)
              is_writable := decide (i < 1 - 0 + 0) }) ∧
      ∀ decode sig slot, ∃ evs,
        processInstruction decode sig slot
            ⟨⟨1, 0, 0⟩, [RAYDIUM_PROGRAM_ID], []⟩ ⟨0, [0, 5], [7]⟩ =
          RunResult.ok ([ix], evs) :=
  C3_amended_oob_index_skipped ⟨⟨1, 0, 0⟩, [RAYDIUM_PROGRAM_ID], []⟩
    ⟨0, [0, 5], [7]⟩ (by decide) (by decide) (by decide)

/-- Claim C6: an instruction whose resolved program id differs from the
configured target (`RAYDIUM_PROGRAM_ID`, compared by pure equality) is
rejected by the resolver and the decoder is never invoked on it,
regardless of the instruction's payload and of the decoder supplied. -/
theorem C6_program_filter_precision (msg : VersionedMessage)
    (cix : CompiledInstruction)
    (hlt : cix.program_id_index < msg.account_keys.length)
    (hne : msg.account_keys.getD cix.program_id_index "" ≠ RAYDIUM_PROGRAM_ID) :
    convert_compiled_instruction cix msg = RunResult.ok none ∧
    ∀ decode sig slot,
      processInstruction decode sig slot msg cix = RunResult.ok ([], []) := by
  have hc : convert_compiled_instruction cix msg = RunResult.ok none := by
    unfold convert_compiled_instruction
    rw [if_neg (by omega), if_pos hne]
  exact ⟨hc, fun decode sig slot => by simp [processInstruction, hc]⟩

/-- Witness for C6: a table whose only key is not the target; no decoder
invocation happens even for a decoder that would match any payload. -/
theorem C6_program_filter_precision_witness :
    convert_compiled_instruction ⟨0, [0], [9, 9]⟩ ⟨⟨1, 0, 0⟩, ["X"], []⟩ =
      RunResult.ok none ∧
    processInstruction (fun _ => some (RaydiumAmmV4Instruction.swapBaseIn 5 6))
        "sig" 42 ⟨⟨1, 0, 0⟩, ["X"], []⟩ ⟨0, [0], [9, 9]⟩ =
      RunResult.ok ([], []) := by
  have h := C6_program_filter_precision ⟨⟨1, 0, 0⟩, ["X"], []⟩ ⟨0, [0], [9, 9]⟩
    (by decide) (by decide)
  exact ⟨h.1, h.2 _ "sig" 42⟩

/-- Claim C7: an instruction whose `program_id_index` is out of range of
the key table resolves to `None` (no panic), and the transaction walk over
the surrounding instruction list behaves exactly as if that instruction
were absent: the remaining instructions are still processed. -/
theorem C7_program_index_oob_skipped (msg : VersionedMessage)
    (cix : CompiledInstruction)
    (h : cix.program_id_index ≥ msg.account_keys.length) :
    convert_compiled_instruction cix msg = RunResult.ok none ∧
    ∀ decode sig slot pre post,
      decode_transaction_go decode sig slot msg (pre ++ cix :: post) =
        decode_transaction_go decode sig slot msg (pre ++ post) := by
  have hc : convert_compiled_instruction cix msg = RunResult.ok none := by
    unfold convert_compiled_instruction
    rw [if_pos h]
  refine ⟨hc, ?_⟩
  intro decode sig slot pre post
  induction pre with
  | nil =>
      simp only [List.nil_append, decode_transaction_go, processInstruction, hc]
      cases hgo : decode_transaction_go decode sig slot msg post with
      | panicked => simp
      | ok p => cases p with | mk a b => simp
  | cons a pre ih =>
      show decode_transaction_go decode sig slot msg (a :: (pre ++ cix :: post)) =
        decode_transaction_go decode sig slot msg (a :: (pre ++ post))
      simp only [decode_transaction_go]
      cases hp : processInstruction decode sig slot msg a with
      | panicked => rfl
      | ok p =>
          cases p with
          | mk ixs evs => rw [ih]

/-- Witness for C7: a 1-entry table and `program_id_index = 3`; the
instruction is skipped and the walk over `[good, bad, good]` equals the
walk over `[good, good]`. -/
theorem C7_program_index_oob_skipped_witness :
    convert_compiled_instruction ⟨3, [0], [1]⟩
        ⟨⟨1, 0, 0⟩, [RAYDIUM_PROGRAM_ID], []⟩ = RunResult.ok none ∧
    decode_transaction_go (fun _ => some (RaydiumAmmV4Instruction.swapBaseIn 1 2))
        "s" 9 ⟨⟨1, 0, 0⟩, [RAYDIUM_PROGRAM_ID], []⟩
        ([⟨0, [0], [4]⟩] ++ (⟨3, [0], [1]⟩ : CompiledInstruction) :: [⟨0, [], [6]⟩]) =
      decode_transaction_go (fun _ => some (RaydiumAmmV4Instruction.swapBaseIn 1 2))
        "s" 9 ⟨⟨1, 0, 0⟩, [RAYDIUM_PROGRAM_ID], []⟩
        ([⟨0, [0], [4]⟩] ++ [⟨0, [], [6]⟩]) := by
  have h := C7_program_index_oob_skipped ⟨⟨1, 0, 0⟩, [RAYDIUM_PROGRAM_ID], []⟩
    ⟨3, [0], [1]⟩ (by decide)
  exact ⟨h.1, h.2 _ "s" 9 [⟨0, [0], [4]⟩] [⟨0, [], [6]⟩]⟩

/-- Claim C9: with the header invariant
`num_required_signatures ≥ num_readonly_signed_accounts` the resolver
never panics; when the invariant is violated
(`num_readonly_signed_accounts > num_required_signatures`) the `usize`
subtraction computing `num_writable_signers` underflows and the resolver
panics on every input that reaches it (in-range program index matching the
target program). -/
theorem C9_underflow_panic :
    (∀ msg cix, msg.header.num_readonly_signed_accounts ≤
        msg.header.num_required_signatures →
      convert_compiled_instruction cix msg ≠ RunResult.panicked) ∧
    (∀ hdr : MessageHeader, hdr.num_required_signatures <
        hdr.num_readonly_signed_accounts →
      ∃ msg cix, msg.header = hdr ∧
        convert_compiled_instruction cix msg = RunResult.panicked) := by
  constructor
  · intro msg cix hinv
    unfold convert_compiled_instruction
    split
    · simp
    · split
      · simp
      · split
        · omega
        · simp
  · intro hdr hbad
    refine ⟨⟨hdr, [RAYDIUM_PROGRAM_ID], []⟩, ⟨0, [], []⟩, rfl, ?_⟩
    unfold convert_compiled_instruction
    rw [if_neg (by simp), if_neg (by simp), if_pos hbad]

/-- Witness for C9: the header `{1, 0, 0}` never panics at a concrete
input, and the violating header `{0, 1, 0}` reaches the panic. -/
theorem C9_underflow_panic_witness :
    convert_compiled_instruction ⟨0, [], []⟩
        ⟨⟨1, 0, 0⟩, [RAYDIUM_PROGRAM_ID], []⟩ ≠ RunResult.panicked ∧
    ∃ msg cix, msg.header = ⟨0, 1, 0⟩ ∧
      convert_compiled_instruction cix msg = RunResult.panicked :=
  ⟨C9_underflow_panic.1 ⟨⟨1, 0, 0⟩, [RAYDIUM_PROGRAM_ID], []⟩ ⟨0, [], []⟩
      (by decide),
    C9_underflow_panic.2 ⟨0, 1, 0⟩ (by decide)⟩

/-- Claim C5: while armed at `s0`, the tracker signals terminal exactly
when the signed `i64` difference computes to a value `d ≥ 100` and not
before (when the `i64` subtraction overflows the step panics and signals
nothing); on the slot trace `[100, 150, 199, 200]` starting unarmed,
slots 100, 150 and 199 are processed (diff 0, 50, 99) and the loop
terminates at slot 200 (diff 100). -/
theorem C5_window_termination :
    (∀ s0 slot sig d, slot_diff s0 slot = RunResult.ok d →
      (ws_loop_step (some s0) ⟨some slot, sig⟩ =
          RunResult.ok (some s0, NotificationOutcome.terminal) ↔ d ≥ 100)) ∧
    ws_loop none
        [⟨some 100, some "a"⟩, ⟨some 150, some "b"⟩,
         ⟨some 199, some "c"⟩, ⟨some 200, some "d"⟩] =
      RunResult.ok
        [NotificationOutcome.processed "a", NotificationOutcome.processed "b",
         NotificationOutcome.processed "c", NotificationOutcome.terminal] := by
  constructor
  · intro s0 slot sig d hd
    by_cases h : d ≥ 100 <;> simp [ws_loop_step, hd, h]
  · rfl

/-- Witness for C5: the armed tracker at `s0 = 100` is terminal for slot
200 (diff 100, in `i64` range) and the concrete trace behaves as
stated. -/
theorem C5_window_termination_witness :
    (ws_loop_step (some 100) ⟨some 200, some "d"⟩ =
        RunResult.ok (some 100, NotificationOutcome.terminal) ↔
      (100 : Int) ≥ 100) ∧
    ws_loop none
        [⟨some 100, some "a"⟩, ⟨some 150, some "b"⟩,
         ⟨some 199, some "c"⟩, ⟨some 200, some "d"⟩] =
      RunResult.ok
        [NotificationOutcome.processed "a", NotificationOutcome.processed "b",
         NotificationOutcome.processed "c", NotificationOutcome.terminal] :=
  ⟨C5_window_termination.1 100 200 (some "d") 100 (by decide),
    C5_window_termination.2⟩

/-- Claim C2 counterexample: armed at slot 100, the notification with slot
200 (diff 100) hits the window check, which runs before the fetch; the
loop breaks at once, so the crossing notification's transaction is never
fetched (hence never walked, decoded or persisted). -/
theorem C2_crossing_not_processed_counterexample :
    ws_loop none [⟨some 100, some "a"⟩, ⟨some 200, some "b"⟩] =
      RunResult.ok
        [NotificationOutcome.processed "a", NotificationOutcome.terminal] ∧
    ws_loop_step (some 100) ⟨some 200, some "b"⟩ =
      RunResult.ok (some 100, NotificationOutcome.terminal) ∧
    fetch_occurs NotificationOutcome.terminal = false := by
  refine ⟨by decide, by decide, rfl⟩

/-- Claim C2 as amended: the window comparison is evaluated before the
current notification's transaction is fetched, so the crossing
notification is NOT processed — when the signed `i64` difference computes
to `d ≥ 100` the step yields the terminal outcome and no fetch occurs for
that notification. -/
theorem C2_crossing_terminates_before_fetch (s0 slot : Nat)
    (sig : Option String) (d : Int)
    (hd : slot_diff s0 slot = RunResult.ok d) (h : d ≥ 100) :
    ws_loop_step (some s0) ⟨some slot, sig⟩ =
      RunResult.ok (some s0, NotificationOutcome.terminal) ∧
    ∀ st out, ws_loop_step (some s0) ⟨some slot, sig⟩ = RunResult.ok (st, out) →
      fetch_occurs out = false := by
  have hstep : ws_loop_step (some s0) ⟨some slot, sig⟩ =
      RunResult.ok (some s0, NotificationOutcome.terminal) := by
    simp [ws_loop_step, hd, h]
  refine ⟨hstep, ?_⟩
  intro st out hout
  rw [hstep] at hout
  simp only [RunResult.ok.injEq, Prod.mk.injEq] at hout
  rw [← hout.2]
  rfl

/-- Witness for the amended C2 at `s0 = 100`, `slot = 200` (diff 100). -/
theorem C2_crossing_terminates_before_fetch_witness :
    ws_loop_step (some 100) ⟨some 200, some "b"⟩ =
      RunResult.ok (some 100, NotificationOutcome.terminal) ∧
    fetch_occurs NotificationOutcome.terminal = false := by
  have h := C2_crossing_terminates_before_fetch 100 200 (some "b") 100
    (by decide) (by decide)
  exact ⟨h.1, h.2 (some 100) NotificationOutcome.terminal h.1⟩

/-- Claim C8 counterexample: a notification with a missing signature whose
slot crosses the armed window (`s0 = 100`, slot 200) is NOT fetched — the
loop breaks first — contradicting the claim that a fetch is still
attempted for every notification with a missing signature. -/
theorem C8_missing_signature_counterexample :
    (Notification.mk (some 200) none).signature = none ∧
    ws_loop_step (some 100) ⟨some 200, none⟩ =
      RunResult.ok (some 100, NotificationOutcome.terminal) ∧
    fetch_occurs NotificationOutcome.terminal = false := by
  refine ⟨rfl, by decide, rfl⟩

/-- Claim C8 as amended: a notification with a missing slot is dropped
(with a warning) and no fetch occurs; a notification with a missing
signature defaults the signature to `""` and a fetch is still attempted,
provided the signed `i64` window difference for its slot computes (no
overflow panic) to a value `d < 100` — `start` being the armed initial
slot, or the notification's own slot when it is the arming one. -/
theorem C8_missing_fields (st : Option Nat) (n : Notification) :
    (n.slot = none →
      ws_loop_step st n = RunResult.ok (st, NotificationOutcome.dropped) ∧
      fetch_occurs NotificationOutcome.dropped = false) ∧
    (∀ slot d, n.slot = some slot → n.signature = none →
      slot_diff (st.getD slot) slot = RunResult.ok d → d < 100 →
      ws_loop_step st n =
        RunResult.ok (some (st.getD slot), NotificationOutcome.processed "") ∧
      fetch_occurs (NotificationOutcome.processed "") = true) := by
  constructor
  · intro hslot
    exact ⟨by simp [ws_loop_step, hslot], rfl⟩
  · intro slot d hslot hsig hd hlt
    cases n with
    | mk ns nsig =>
        cases hslot
        cases hsig
        cases st with
        | none =>
            refine ⟨?_, rfl⟩
            simp only [Option.getD_none] at hd ⊢
            simp [ws_loop_step, hd, not_le.mpr hlt]
        | some s0 =>
            refine ⟨?_, rfl⟩
            simp only [Option.getD_some] at hd ⊢
            simp [ws_loop_step, hd, not_le.mpr hlt]

/-- Witness for the amended C8: a missing-slot notification is dropped
with no fetch, and a missing-signature notification at diff 50 is
processed with signature `""` and a fetch attempted. -/
theorem C8_missing_fields_witness :
    (ws_loop_step (some 100) ⟨none, some "x"⟩ =
        RunResult.ok (some 100, NotificationOutcome.dropped) ∧
      fetch_occurs NotificationOutcome.dropped = false) ∧
    (ws_loop_step (some 100) ⟨some 150, none⟩ =
        RunResult.ok (some 100, NotificationOutcome.processed "") ∧
      fetch_occurs (NotificationOutcome.processed "") = true) :=
  ⟨(C8_missing_fields (some 100) ⟨none, some "x"⟩).1 rfl,
    (C8_missing_fields (some 100) ⟨some 150, none⟩).2 150 50 rfl rfl
      (by decide) (by decide)⟩
